import Mathlib

/-!
# Verification of the canary fault-injection subsystem

A shallow embedding of `examples/python/canary` (providers.py, faults.py,
factory.py, runner.py, scenarios.py) and proofs about it.

Modelling conventions:
* Python floats carrying failure rates / completeness ratios are modelled as
  rationals (`ℚ`); Python's `int(x)` on the non-negative values involved is
  `⌊x⌋`.
* The seeded pseudorandom generator `random.Random(42)` is modelled by a
  deterministic linear congruential generator over `ℕ`; the program only
  relies on the stream being deterministic for a fixed seed, `random()`
  landing in `[0, 1)` and `randint(a, b)` landing in `[a, b]`, which the
  stand-in provides.
* `time.sleep` has no observable effect beyond the elapsed simulated time,
  which the embedded calls return explicitly (in milliseconds).
* Python strings are Lean `String`s; `str.lower` is modelled on ASCII
  (every string the program ever lowers is ASCII).
* Exceptions become `Except` errors carrying the same message text the
  Python exception would render with `str(e)`.
-/

namespace Canary

/-! ## Pseudorandom stream (deterministic stand-in, seed 42) -/

/-- One step of the deterministic generator standing in for
`random.Random`'s internal state transition. -/
def rngStep (s : ℕ) : ℕ := (1103515245 * s + 12345) % 2147483648

/-- Stand-in for `random.random()`: a rational in `[0, 1)` plus the new
generator state. -/
def randomUnit (s : ℕ) : ℚ × ℕ :=
  let s' := rngStep s
  (((s' % 1048576 : ℕ) : ℚ) / 1048576, s')

/-- Stand-in for `random.randint lo hi` (inclusive bounds) plus the new
generator state. -/
def randomIntRange (lo hi s : ℕ) : ℕ × ℕ :=
  let s' := rngStep s
  (lo + s' % (hi - lo + 1), s')

/-- The fixed seed both mock providers construct their generator with
(providers.py line 160 and line 402: `random.Random(42)`). -/
def seedValue : ℕ := 42

/-! ## String helpers mirroring the Python string operations used -/

/-- ASCII `str.lower` on one character. -/
def lowerChar (c : Char) : Char :=
  if 65 ≤ c.toNat ∧ c.toNat ≤ 90 then Char.ofNat (c.toNat + 32) else c

/-- ASCII `str.lower`. -/
def lowerStr (s : String) : String := String.mk (s.data.map lowerChar)

/-- Whether `needle` is an initial segment of `hay` (character lists). -/
def leadMatch : List Char → List Char → Bool
  | [], _ => true
  | _ :: _, [] => false
  | a :: as, b :: bs => a == b && leadMatch as bs

/-- Whether `needle` occurs contiguously inside `hay` (character lists);
models Python's `needle in hay` on strings. -/
def occursIn (needle : List Char) : List Char → Bool
  | [] => needle.isEmpty
  | h :: t => leadMatch needle (h :: t) || occursIn needle t

/-- Python's `needle in hay` for strings. -/
def strContains (hay needle : String) : Bool := occursIn needle.data hay.data

/-- Python's `s[:n]` for `0 ≤ n`. -/
def strTake (s : String) (n : ℕ) : String := String.mk (s.data.take n)

/-- Python's `len(s)` (character count). -/
def strLen (s : String) : ℕ := s.data.length

/-- Python's `" ".join(messages)`. -/
def joinSpace : List String → String
  | [] => ""
  | [m] => m
  | m :: rest => m ++ " " ++ joinSpace rest

/-! ## Failure patterns and provider state (providers.py) -/

/-- The three failure patterns accepted by both mock providers
(`failure_pattern` is validated against exactly these names). -/
inductive FailurePattern where
  | random
  | periodic
  | burst
deriving DecidableEq, Repr

/-- The pattern's configuration-string name. -/
def FailurePattern.str : FailurePattern → String
  | .random => "random"
  | .periodic => "periodic"
  | .burst => "burst"

/-- The per-instance mutable state of a mock provider: `_call_count`,
`_burst_state` and the generator `_random`. -/
structure ProviderState where
  call_count : ℕ
  in_burst : Bool
  burst_remaining : ℤ
  rng : ℕ
deriving DecidableEq, Repr

/-- The state a freshly constructed provider starts in
(`_call_count = 0`, no burst, generator seeded with 42). -/
def initState : ProviderState :=
  { call_count := 0, in_burst := false, burst_remaining := 0, rng := seedValue }

/-- Embeds `_should_fail` as shared by `MockLLMProvider` (providers.py 162-207) and
`MockToolProvider` (providers.py 404-449): decides failure from the pattern
and mutates only the provider's own state. -/
def shouldFail (failure_rate : ℚ) (pat : FailurePattern) (st : ProviderState) :
    Bool × ProviderState :=
  if failure_rate = 0 then (false, st)
  else
    match pat with
    | .random =>
        let u := randomUnit st.rng
        (decide (u.1 < failure_rate), { st with rng := u.2 })
    | .periodic =>
        if 1 ≤ failure_rate then (true, st)
        else
          let period : ℕ := (⌊(1 : ℚ) / failure_rate⌋).toNat
          (decide (st.call_count % period = 0), st)
    | .burst =>
        if st.in_burst then
          let rem := st.burst_remaining - 1
          (true, { st with burst_remaining := rem,
                           in_burst := if rem ≤ 0 then false else true })
        else
          let u := randomUnit st.rng
          if u.1 < failure_rate then
            let b := randomIntRange 2 4 u.2
            (true, { st with in_burst := true, burst_remaining := (b.1 : ℤ),
                             rng := b.2 })
          else (false, { st with rng := u.2 })

/-! ## MockLLMProvider (providers.py 97-348) -/

/-- The constructor parameters of `MockLLMProvider` (after validation). -/
structure LLMParams where
  latency_ms : ℕ
  failure_rate : ℚ
  failure_pattern : FailurePattern
  rate_limit_after : Option ℕ
  max_tokens : Option ℕ
  completeness_ratio : ℚ
deriving DecidableEq, Repr

/-- The default-constructed mock LLM provider (all fault injection off). -/
def defaultLLMParams : LLMParams :=
  { latency_ms := 500, failure_rate := 0, failure_pattern := .random,
    rate_limit_after := none, max_tokens := none, completeness_ratio := 1 }

/-- The observable pieces of the response dictionary `call` builds. -/
structure LLMResponse where
  id : String
  model : String
  content : Option String
  tool_calls : Option (String × String)
  finish_reason : String
  prompt_tokens : ℕ
  completion_tokens : ℕ
  total_tokens : ℕ
deriving DecidableEq, Repr

/-- The exceptions `MockLLMProvider.call` can raise. -/
inductive CallError where
  | rateLimit (after : ℕ)
  | mockLLMFailure (pat : FailurePattern) (call : ℕ)
  | tokenLimit (tokens_used max_tokens : ℕ)
  | emptyMessages
deriving DecidableEq, Repr

/-- Renders `str(e)` of each exception (faults.py 65-95, providers.py 257-265). -/
def CallError.msg : CallError → String
  | .rateLimit n => "Rate limit exceeded after " ++ toString n ++ " calls"
  | .mockLLMFailure pat c =>
      "Mock LLM failure (pattern: " ++ pat.str ++ ", call: " ++ toString c ++ ")"
  | .tokenLimit t m =>
      "Token limit exceeded: " ++ toString t ++ " tokens used, maximum is "
        ++ toString m
  | .emptyMessages => "IndexError: list index out of range"

/-- Deterministic stand-in for `hash(prompt_text) % 1000000` in the response
id (the program relies only on the hash being deterministic within a run). -/
def mockHash (s : String) : ℕ :=
  (s.data.foldl (fun a c => a * 31 + c.toNat) 7) % 1000000

/-- The canned text response (providers.py line 317). -/
def mockResponseText : String := "This is a mock response for testing purposes."

/-- Whether the rate-limit ceiling is configured and the (already
incremented) call count exceeds it (providers.py 253-256). -/
def rateLimited (rate_limit_after : Option ℕ) (count : ℕ) : Bool :=
  match rate_limit_after with
  | some n => decide (count > n)
  | none => false

/-- Whether the token ceiling is configured and exceeded
(providers.py 285, 329). -/
def tokenGate (max_tokens : Option ℕ) (total : ℕ) : Bool :=
  match max_tokens with
  | some m => decide (total > m)
  | none => false

/-- The canned text truncated per `completeness_ratio`
(providers.py 320-322). -/
def truncatedResponseText (ratio : ℚ) : String :=
  if ratio < 1 then
    strTake mockResponseText ((⌊(strLen mockResponseText : ℚ) * ratio⌋).toNat)
  else mockResponseText

/-- The part of `MockLLMProvider.call` past the rate-limit and fault-pattern
checks (providers.py 267-348): the latency sleep, the token computation, the
token-limit check, and the response generation. The provider state is not
touched here. -/
def llmCallBody (p : LLMParams) (st2 : ProviderState) (model : String)
    (messages : List String) (hasTools : Bool) :
    Except CallError LLMResponse × ProviderState × ℕ :=
  let prompt_text := joinSpace messages
  let prompt_tokens := max 1 (strLen prompt_text / 4)
  match messages.getLast? with
  | none => (.error .emptyMessages, st2, p.latency_ms)
  | some last =>
      let lastLower := lowerStr last
      if hasTools && (strContains lastLower "weather"
          || strContains lastLower "temperature") then
        let completion_tokens := 25
        let total_tokens := prompt_tokens + completion_tokens
        if tokenGate p.max_tokens total_tokens then
          (.error (.tokenLimit total_tokens (p.max_tokens.getD 0)), st2,
            p.latency_ms)
        else
          (.ok { id := "mock-" ++ toString (mockHash prompt_text),
                 model := model, content := none,
                 tool_calls := some ("get_weather", "Paris"),
                 finish_reason := "tool_calls",
                 prompt_tokens := prompt_tokens,
                 completion_tokens := completion_tokens,
                 total_tokens := total_tokens }, st2, p.latency_ms)
      else
        let response_text := truncatedResponseText p.completeness_ratio
        let completion_tokens := max 1 (strLen response_text / 4)
        let total_tokens := prompt_tokens + completion_tokens
        if tokenGate p.max_tokens total_tokens then
          (.error (.tokenLimit total_tokens (p.max_tokens.getD 0)), st2,
            p.latency_ms)
        else
          (.ok { id := "mock-" ++ toString (mockHash prompt_text),
                 model := model, content := some response_text,
                 tool_calls := none, finish_reason := "stop",
                 prompt_tokens := prompt_tokens,
                 completion_tokens := completion_tokens,
                 total_tokens := total_tokens }, st2, p.latency_ms)

/-- Embeds `MockLLMProvider.call` (providers.py 218-348). `messages` carries the
message contents in order; `hasTools` is the truthiness of `tools`. Returns
the result (response or raised exception), the provider state after the
call, and the simulated latency actually slept (ms). -/
def llmCall (p : LLMParams) (st : ProviderState) (model : String)
    (messages : List String) (hasTools : Bool) :
    Except CallError LLMResponse × ProviderState × ℕ :=
  let st1 := { st with call_count := st.call_count + 1 }
  if rateLimited p.rate_limit_after st1.call_count then
    (.error (.rateLimit (p.rate_limit_after.getD 0)), st1, 0)
  else
    let fr := shouldFail p.failure_rate p.failure_pattern st1
    if fr.1 then
      (.error (.mockLLMFailure p.failure_pattern fr.2.call_count), fr.2, 0)
    else llmCallBody p fr.2 model messages hasTools

/-- A sequence of `n` identical calls on one provider instance, collecting
each call's result and threading the instance state. -/
def llmRun (p : LLMParams) (st : ProviderState) (messages : List String)
    (hasTools : Bool) : ℕ → List (Except CallError LLMResponse) × ProviderState
  | 0 => ([], st)
  | n + 1 =>
      let c := llmCall p st "gpt-4" messages hasTools
      let rest := llmRun p c.2.1 messages hasTools n
      (c.1 :: rest.1, rest.2)

/-- Whether a call result is the generic pattern-triggered failure. -/
def isMockFailure : Except CallError LLMResponse → Bool
  | .error (.mockLLMFailure _ _) => true
  | _ => false

/-- Whether a call result is a `RateLimitError`. -/
def isRateLimit : Except CallError LLMResponse → Bool
  | .error (.rateLimit _) => true
  | _ => false

/-- The per-call failure flags (`true` = the fault pattern made the call
raise) of `n` successive calls. -/
def llmFailFlags (p : LLMParams) (st : ProviderState) (messages : List String)
    (hasTools : Bool) (n : ℕ) : List Bool :=
  (llmRun p st messages hasTools n).1.map isMockFailure

/-! ## MockToolProvider (providers.py 351-547) -/

/-- The constructor parameters of `MockToolProvider` (after validation). -/
structure ToolParams where
  failure_rate : ℚ
  latency_ms : ℕ
  failure_pattern : FailurePattern
  completeness_ratio : ℚ
deriving DecidableEq, Repr

/-- The JSON-like values a tool result dictionary holds. -/
inductive JValue where
  | s (v : String)
  | n (v : ℤ)
  | dict (kvs : List (String × JValue))
  | arr (items : List JValue)

/-- Computes `value[:int(len(value) * ratio)]` on a string value
(providers.py 467-468 and 476). -/
def strTruncate (ratio : ℚ) (v : String) : String :=
  strTake v ((⌊(strLen v : ℚ) * ratio⌋).toNat)

mutual

/-- Embeds `MockToolProvider._truncate_response` (providers.py 451-490). -/
def truncateResponse (ratio : ℚ) (result : List (String × JValue)) :
    List (String × JValue) :=
  if 1 ≤ ratio then result else truncDict ratio result

/-- The `for key, value in result.items()` loop of `_truncate_response`
(providers.py 463-488). -/
def truncDict (ratio : ℚ) : List (String × JValue) → List (String × JValue)
  | [] => []
  | (k, v) :: rest => (k, truncDictVal ratio v) :: truncDict ratio rest

/-- One dictionary value of `_truncate_response`'s loop: strings truncated,
dictionaries recursed, lists processed element-wise, everything else kept. -/
def truncDictVal (ratio : ℚ) : JValue → JValue
  | .s v => .s (strTruncate ratio v)
  | .dict kvs => .dict (truncateResponse ratio kvs)
  | .arr items => .arr (truncItems ratio items)
  | .n v => .n v

/-- The list comprehension over a list value (providers.py 474-485). -/
def truncItems (ratio : ℚ) : List JValue → List JValue
  | [] => []
  | item :: rest => truncItem ratio item :: truncItems ratio rest

/-- One list item (providers.py 475-483): strings truncated, dictionaries
recursed, any other item — including a nested list — kept as is. -/
def truncItem (ratio : ℚ) : JValue → JValue
  | .s v => .s (strTruncate ratio v)
  | .dict kvs => .dict (truncateResponse ratio kvs)
  | item => item

end

/-- The exceptions `MockToolProvider.execute` can raise. -/
inductive ToolError where
  | mockToolFailure (pat : FailurePattern) (call : ℕ) (tool : String)
  | unknownTool (tool : String)
deriving DecidableEq, Repr

/-- Renders `str(e)` of each tool exception (providers.py 521-523 and 544). -/
def ToolError.msg : ToolError → String
  | .mockToolFailure pat c tool =>
      "Mock tool failure (pattern: " ++ pat.str ++ ", call: " ++ toString c
        ++ "): " ++ tool
  | .unknownTool t => "Unknown tool: " ++ t

/-- The fixed `get_weather` payload (providers.py 528-534). -/
def getWeatherResult (location : String) : List (String × JValue) :=
  [("location", .s location), ("temperature", .s "72°F"),
   ("condition", .s "sunny"), ("humidity", .s "45%"),
   ("wind_speed", .s "8 mph")]

/-- The fixed `search` payload (providers.py 536-542). -/
def searchResult (query : String) : List (String × JValue) :=
  [("results", .arr
    [.dict [("title", .s ("Result 1 for " ++ query)),
            ("url", .s "https://example.com/1")],
     .dict [("title", .s ("Result 2 for " ++ query)),
            ("url", .s "https://example.com/2")]])]

/-- Embeds `MockToolProvider.execute` (providers.py 492-547): increments the call
count, sleeps, evaluates the fault pattern, serves the known tools, rejects
unknown ones, truncates the result. Returns the result, the provider state
after the call, and the simulated latency slept (ms). -/
def toolExecute (p : ToolParams) (st : ProviderState) (tool_name : String)
    (arguments : List (String × String)) :
    Except ToolError (List (String × JValue)) × ProviderState × ℕ :=
  let st1 := { st with call_count := st.call_count + 1 }
  let fr := shouldFail p.failure_rate p.failure_pattern st1
  let st2 := fr.2
  if fr.1 then
    (.error (.mockToolFailure p.failure_pattern st2.call_count tool_name),
      st2, p.latency_ms)
  else if tool_name = "get_weather" then
    let location := (List.lookup "location" arguments).getD "Unknown"
    (.ok (truncateResponse p.completeness_ratio (getWeatherResult location)),
      st2, p.latency_ms)
  else if tool_name = "search" then
    let query := (List.lookup "query" arguments).getD ""
    (.ok (truncateResponse p.completeness_ratio (searchResult query)),
      st2, p.latency_ms)
  else (.error (.unknownTool tool_name), st2, p.latency_ms)

/-! ## ConfigurableAgent.invoke (agent.py 202-406, 408-506)

Telemetry (spans, metrics, logs) is an external collaborator with no effect
on the agent's return value; only the provider calls and the response
synthesis are embedded. Exceptions from either provider propagate
unmodified, as `Except.error` carrying `str(e)`. -/

/-- The mutable state of one agent's two providers. -/
structure AgentState where
  llm : ProviderState
  tool : ProviderState
deriving DecidableEq, Repr

/-- The fixed system message (agent.py 264-270). -/
def systemMessage : String := "You are a helpful weather assistant."

/-- Models the `tool_result` field access performed by the final f-string
(agent.py 355-359); a missing key would be a `KeyError`, a non-string a
deviation the weather payload never exhibits. -/
def getStrField (kvs : List (String × JValue)) (k : String) :
    Except String String :=
  match List.lookup k kvs with
  | some (.s v) => .ok v
  | some _ => .error ("TypeError: field " ++ k)
  | none => .error ("KeyError: " ++ k)

/-- The final response synthesized from the tool result (agent.py 355-359). -/
def finalFromToolResult (result : List (String × JValue)) :
    Except String String := do
  let l ← getStrField result "location"
  let c ← getStrField result "condition"
  let t ← getStrField result "temperature"
  pure ("The weather in " ++ l ++ " is " ++ c ++ " with a temperature of "
    ++ t ++ ".")

/-- Embeds `ConfigurableAgent.invoke`: one LLM call with the system and user
messages and the tools list supplied; if the response carries a tool call,
execute exactly its first tool call and synthesize the final text; otherwise
the fixed fallback. Errors propagate with their message text. -/
def agentInvoke (lp : LLMParams) (tp : ToolParams) (st : AgentState)
    (user_message : String) : Except String String × AgentState :=
  let messages := [systemMessage, user_message]
  let c := llmCall lp st.llm "gpt-4" messages true
  match c.1 with
  | .error e => (.error e.msg, { llm := c.2.1, tool := st.tool })
  | .ok resp =>
      match resp.tool_calls with
      | some (name, loc) =>
          let t := toolExecute tp st.tool name [("location", loc)]
          match t.1 with
          | .error te => (.error te.msg, { llm := c.2.1, tool := t.2.1 })
          | .ok result =>
              (finalFromToolResult result, { llm := c.2.1, tool := t.2.1 })
      | none =>
          (.ok "I couldn\'t determine what you\'re asking about.",
            { llm := c.2.1, tool := st.tool })

/-! ## ToolFailureScenario (scenarios.py 180-248)

The scenario invokes the agent once with the fixed message and classifies
an escaped exception by its text. The wall-clock fields
(`duration_seconds`, the time-derived `conversation_id`) are real-time
observations with no influence on the classification and are not modelled
here; the runner-level result record models them explicitly below. -/

/-- The success flag and error message `ToolFailureScenario.execute`
reports. -/
structure ScenarioVerdict where
  success : Bool
  error_message : Option String
deriving DecidableEq, Repr

/-- The exception classification of `ToolFailureScenario.execute`
(scenarios.py 209-248). -/
def classifyToolFailure (r : Except String String) : ScenarioVerdict :=
  match r with
  | .ok _ => { success := true, error_message := none }
  | .error e =>
      if strContains e "Mock tool failure"
          || strContains e "Tool execution failed" then
        { success := true, error_message := some ("Expected tool failure: " ++ e) }
      else
        { success := false, error_message := some e }

/-- The user message `ToolFailureScenario` sends (scenarios.py 211-214). -/
def toolFailureMessage : String := "What\'s the weather in Paris?"

/-! ## FaultInjectionConfig (faults.py 7-62) and AgentFactory (factory.py) -/

/-- A configuration parameter value as it sits in a profile's parameter
mapping. -/
inductive PVal where
  | nat (v : ℕ)
  | rat (v : ℚ)
  | str (v : String)
  | none
deriving DecidableEq, Repr

/-- Embeds `FaultProfile` (faults.py 7-11). -/
structure FaultProfile where
  name : String
  parameters : List (String × PVal)
deriving DecidableEq, Repr

/-- Embeds `FaultInjectionConfig` (faults.py 14-18). -/
structure FaultInjectionConfig where
  enabled : Bool
  profiles : List FaultProfile
deriving DecidableEq, Repr

/-- Embeds `get_profile`: first match by name (faults.py 20-33). -/
def FaultInjectionConfig.getProfile (fc : FaultInjectionConfig)
    (name : String) : Option FaultProfile :=
  fc.profiles.find? (fun p => p.name == name)

/-- Embeds `is_profile_enabled` (faults.py 35-45). -/
def FaultInjectionConfig.isProfileEnabled (fc : FaultInjectionConfig)
    (name : String) : Bool :=
  fc.profiles.any (fun p => p.name == name)

/-- Embeds `get_parameter` (faults.py 47-62): the profile's value for the key, or
the default when the profile or the key is absent — never raises. -/
def FaultInjectionConfig.getParameter (fc : FaultInjectionConfig)
    (profile key : String) (default : PVal) : PVal :=
  match fc.getProfile profile with
  | some p => (List.lookup key p.parameters).getD default
  | Option.none => default

/-- Reads a fault parameter as a count, keeping the default when the stored
value is not one (the Python code passes the raw value through; the only
values a validated configuration stores under these keys are counts). -/
def PVal.asNat (v : PVal) (d : ℕ) : ℕ :=
  match v with
  | .nat n => n
  | _ => d

/-- Reads a fault parameter as a rate/ratio. -/
def PVal.asRat (v : PVal) (d : ℚ) : ℚ :=
  match v with
  | .rat q => q
  | .nat n => (n : ℚ)
  | _ => d

/-- Reads an optional count (`None` default stays `none`). -/
def PVal.asOptNat (v : PVal) (d : Option ℕ) : Option ℕ :=
  match v with
  | .nat n => some n
  | .none => Option.none
  | _ => d

/-- Reads a pattern name, keeping the default on any other value (an
invalid pattern string is rejected by the provider constructor before any
call can happen, so it never reaches the embedded call functions). -/
def PVal.asPattern (v : PVal) (d : FailurePattern) : FailurePattern :=
  match v with
  | .str "random" => .random
  | .str "periodic" => .periodic
  | .str "burst" => .burst
  | _ => d

/-- The mock-mode agent settings `create_from_config` reads from `config`
(each `config.get(key, default)`, factory.py 160-162): `none` models a key
that is absent. -/
structure AgentConfig where
  llm_latency_ms : Option ℕ
  tool_latency_ms : Option ℕ
  tool_failure_rate : Option ℚ
deriving DecidableEq, Repr

/-- The provider-parameter quintuple threaded through the fault-profile
merge, in the order the factory computes it. -/
structure MergedSettings where
  llm_latency : ℕ
  tool_latency : ℕ
  tool_failure_rate : ℚ
  llm_failure_rate : ℚ
  failure_pattern : FailurePattern
  rate_limit_after : Option ℕ
  max_tokens : Option ℕ
  completeness_ratio : ℚ
deriving DecidableEq, Repr

/-- The fault-profile merge applied when fault injection is enabled
(factory.py 172-214), profile by profile on top of the base settings. -/
def applyFaultProfiles (fc : FaultInjectionConfig) (base : MergedSettings) :
    MergedSettings :=
  let s := base
  let s :=
    if fc.isProfileEnabled "high_latency" then
      { s with
        llm_latency :=
          (fc.getParameter "high_latency" "llm_latency_ms"
            (.nat s.llm_latency)).asNat s.llm_latency,
        tool_latency :=
          (fc.getParameter "high_latency" "tool_latency_ms"
            (.nat s.tool_latency)).asNat s.tool_latency }
    else s
  let s :=
    if fc.isProfileEnabled "intermittent_failures" then
      { s with
        llm_failure_rate :=
          (fc.getParameter "intermittent_failures" "llm_failure_rate"
            (.rat 0)).asRat 0,
        tool_failure_rate :=
          (fc.getParameter "intermittent_failures" "tool_failure_rate"
            (.rat s.tool_failure_rate)).asRat s.tool_failure_rate,
        failure_pattern :=
          (fc.getParameter "intermittent_failures" "failure_pattern"
            (.str "random")).asPattern .random }
    else s
  let s :=
    if fc.isProfileEnabled "rate_limits" then
      { s with rate_limit_after :=
          (fc.getParameter "rate_limits" "trigger_after_calls"
            .none).asOptNat s.rate_limit_after }
    else s
  let s :=
    if fc.isProfileEnabled "token_limits" then
      { s with max_tokens :=
          (fc.getParameter "token_limits" "max_tokens"
            .none).asOptNat s.max_tokens }
    else s
  let s :=
    if fc.isProfileEnabled "partial_responses" then
      { s with completeness_ratio :=
          (fc.getParameter "partial_responses" "completeness_ratio"
            (.rat 1)).asRat 1 }
    else s
  s

/-- Embeds `AgentFactory.create_from_config` in mock mode (factory.py 156-239),
reduced to the provider parameters of the agent it returns: base settings
from `config` with the documented defaults, the fault-profile merge applied
only when a fault configuration is present AND enabled. -/
def createFromConfigMock (cfg : AgentConfig)
    (fault_config : Option FaultInjectionConfig) : LLMParams × ToolParams :=
  let base : MergedSettings :=
    { llm_latency := cfg.llm_latency_ms.getD 500,
      tool_latency := cfg.tool_latency_ms.getD 200,
      tool_failure_rate := cfg.tool_failure_rate.getD 0,
      llm_failure_rate := 0,
      failure_pattern := .random,
      rate_limit_after := none,
      max_tokens := none,
      completeness_ratio := 1 }
  let s :=
    match fault_config with
    | some fc => if fc.enabled then applyFaultProfiles fc base else base
    | none => base
  ({ latency_ms := s.llm_latency, failure_rate := s.llm_failure_rate,
     failure_pattern := s.failure_pattern,
     rate_limit_after := s.rate_limit_after, max_tokens := s.max_tokens,
     completeness_ratio := s.completeness_ratio },
   { failure_rate := s.tool_failure_rate, latency_ms := s.tool_latency,
     failure_pattern := s.failure_pattern,
     completeness_ratio := s.completeness_ratio })

/-- A sequence of tool calls on one provider instance. -/
def toolRun (p : ToolParams) (st : ProviderState) (tool_name : String)
    (arguments : List (String × String)) :
    ℕ → List (Except ToolError (List (String × JValue))) × ProviderState
  | 0 => ([], st)
  | n + 1 =>
      let c := toolExecute p st tool_name arguments
      let rest := toolRun p c.2.1 tool_name arguments n
      (c.1 :: rest.1, rest.2)

/-- A sequence of LLM calls with per-call inputs `(model, messages, tools
truthiness)` on one provider instance. -/
def llmSeq (p : LLMParams) (st : ProviderState) :
    List (String × List String × Bool) →
    List (Except CallError LLMResponse) × ProviderState
  | [] => ([], st)
  | (model, messages, hasTools) :: rest =>
      let c := llmCall p st model messages hasTools
      let rs := llmSeq p c.2.1 rest
      (c.1 :: rs.1, rs.2)

/-! ## CanaryRunner scenario loop and summary (runner.py 227-372)

The runner is embedded from the point where configuration loading and agent
construction have succeeded: the parsed fault state is `faultEnabled`
(the truthiness of `self.fault_config and self.fault_config.enabled`) plus
the profile name list, and each configured scenario name comes paired with
what its `execute` call would do (return a result, or itself raise).

`ScenarioResult` is a plain dataclass: instances accept dynamically set
attributes, and reading an attribute that was never set raises
`AttributeError`. Both behaviours are modelled with `Option` fields whose
`none` means "attribute absent". -/

/-- A `ScenarioResult` instance at runtime: the five dataclass fields
(scenarios.py 14-22) plus the two attributes the runner sets dynamically
(runner.py 267-271) — `none` models an attribute that was never set. -/
structure PyScenarioResult where
  scenario_name : String
  success : Bool
  duration_seconds : ℚ
  error_message : Option String
  conversation_id : Option String
  fault_injection_enabled : Option Bool
  active_fault_profiles : Option (Option (List String))
deriving DecidableEq, Repr

/-- The field names the `ScenarioResult` dataclass declares
(scenarios.py 14-22). -/
def scenarioResultFields : List String :=
  ["scenario_name", "success", "duration_seconds", "error_message",
   "conversation_id"]

/-- The keyword arguments the runner's exception branch passes to the
`ScenarioResult` constructor (runner.py 288-301). -/
def runnerExceptKwargs : List String :=
  ["scenario_name", "success", "duration_seconds", "error_message",
   "fault_injection_enabled", "active_fault_profiles"]

/-- A Python dataclass constructor accepts a keyword call iff every keyword
names a declared field; otherwise it raises `TypeError`. -/
def ctorAccepts (fields kwargs : List String) : Bool :=
  kwargs.all (fields.contains ·)

/-- The scenario registry `_execute_scenarios` resolves names against
(runner.py 240-247). -/
def scenarioRegistry : List String :=
  ["simple_tool_call", "multi_tool_chain", "tool_failure",
   "high_token_usage", "conversation_context", "multi_agent"]

/-- What one scenario's `execute(agent)` does: return a result, or itself
raise an exception that escapes `execute`. -/
inductive ExecOutcome where
  | result (success : Bool) (duration : ℚ) (error_message : Option String)
      (conversation_id : Option String)
  | raises (msg : String)
deriving DecidableEq, Repr

/-- The `TypeError` text of a rejected dataclass constructor call. -/
def ctorTypeError : String :=
  "TypeError: unexpected keyword argument fault_injection_enabled"

/-- Embeds `CanaryRunner._execute_scenarios` (runner.py 227-304): unknown names
are skipped; a returned result gets the fault attributes set when fault
injection is enabled and is appended; an exception escaping `execute` makes
the runner construct a failed `ScenarioResult` with zero duration through
the keyword call modelled by `ctorAccepts` — an exception from that
construction escapes the loop. -/
def executeScenarios (faultEnabled : Bool) (profiles : List String) :
    List (String × ExecOutcome) → Except String (List PyScenarioResult)
  | [] => .ok []
  | (name, out) :: rest =>
      if scenarioRegistry.contains name then
        match out with
        | .result succ dur err cid =>
            let base : PyScenarioResult :=
              { scenario_name := name, success := succ,
                duration_seconds := dur, error_message := err,
                conversation_id := cid, fault_injection_enabled := none,
                active_fault_profiles := none }
            let r :=
              if faultEnabled then
                { base with fault_injection_enabled := some true,
                            active_fault_profiles := some (some profiles) }
              else base
            match executeScenarios faultEnabled profiles rest with
            | .ok rs => .ok (r :: rs)
            | .error e => .error e
        | .raises msg =>
            if ctorAccepts scenarioResultFields runnerExceptKwargs then
              let r : PyScenarioResult :=
                { scenario_name := name, success := false,
                  duration_seconds := 0, error_message := some msg,
                  conversation_id := none,
                  fault_injection_enabled := some faultEnabled,
                  active_fault_profiles :=
                    some (if faultEnabled then some profiles else none) }
              match executeScenarios faultEnabled profiles rest with
              | .ok rs => .ok (r :: rs)
              | .error e => .error e
            else .error ctorTypeError
      else executeScenarios faultEnabled profiles rest

/-- Reading `r.fault_injection_enabled`: `AttributeError` when never set. -/
def getFaultAttr (a : Option Bool) : Except String Bool :=
  match a with
  | some b => .ok b
  | none => .error "AttributeError: fault_injection_enabled"

/-- Reading `r.active_fault_profiles`: `AttributeError` when never set. -/
def getProfilesAttr (a : Option (Option (List String))) :
    Except String (Option (List String)) :=
  match a with
  | some v => .ok v
  | none => .error "AttributeError: active_fault_profiles"

/-- The list comprehension at runner.py 338-340, which reads
`r.fault_injection_enabled` on every result. -/
def faultBlockCheck : List PyScenarioResult → Except String Unit
  | [] => .ok ()
  | r :: rest => do
      let _ ← getFaultAttr r.fault_injection_enabled
      faultBlockCheck rest

/-- The failed-scenario report loop at runner.py 350-360, which reads
`result.fault_injection_enabled` (and on `true` also
`result.active_fault_profiles`) for every failed result. -/
def failedBlockCheck : List PyScenarioResult → Except String Unit
  | [] => .ok ()
  | r :: rest =>
      if r.success then failedBlockCheck rest
      else do
        let fi ← getFaultAttr r.fault_injection_enabled
        if fi then
          let _ ← getProfilesAttr r.active_fault_profiles
          failedBlockCheck rest
        else failedBlockCheck rest

/-- Embeds `CanaryRunner._generate_summary` (runner.py 306-372): counts successes
and failures, renders the fault-injection block when enabled and the
failed-scenario block when any scenario failed, and returns the exit code
`0` iff no scenario failed. -/
def generateSummary (faultEnabled : Bool) (results : List PyScenarioResult) :
    Except String ℕ := do
  let failure_count := (results.filter (fun r => !r.success)).length
  if faultEnabled then
    let _ ← faultBlockCheck results
  if failure_count > 0 then
    let _ ← failedBlockCheck results
  pure (if failure_count = 0 then 0 else 1)

/-- Embeds `CanaryRunner.run` from the scenario loop on (runner.py 211-225):
execute the configured scenarios, then compute the summary's exit code. -/
def runCanary (faultEnabled : Bool) (profiles : List String)
    (scenarios : List (String × ExecOutcome)) : Except String ℕ := do
  let results ← executeScenarios faultEnabled profiles scenarios
  generateSummary faultEnabled results

/-- The prompt-token formula of `call`. -/
def promptTokensOf (messages : List String) : ℕ :=
  max 1 (strLen (joinSpace messages) / 4)

/-- The completion-token formula of `call`: 25 on the tool-call path,
the clamped quarter of the (possibly truncated) canned text otherwise. -/
def completionTokensOf (p : LLMParams) (last : String) (hasTools : Bool) : ℕ :=
  if hasTools && (strContains (lowerStr last) "weather"
      || strContains (lowerStr last) "temperature") then 25
  else max 1 (strLen (truncatedResponseText p.completeness_ratio) / 4)

/-- The usage numbers of a successful call result. -/
def resultTokens : Except CallError LLMResponse → Option (ℕ × ℕ × ℕ)
  | .ok r => some (r.prompt_tokens, r.completion_tokens, r.total_tokens)
  | .error _ => none

/-- The payload of a `TokenLimitError` result. -/
def tokenLimitPayload : Except CallError LLMResponse → Option (ℕ × ℕ)
  | .error (.tokenLimit t m) => some (t, m)
  | _ => none

/-- A mock LLM provider configured with only the periodic failure pattern. -/
def mkPeriodicParams (r : ℚ) : LLMParams :=
  { latency_ms := 500, failure_rate := r, failure_pattern := .periodic,
    rate_limit_after := none, max_tokens := none, completeness_ratio := 1 }

/-! ## Shared lemmas -/

/-- The fault-pattern evaluator never touches the call counter. -/
lemma shouldFail_call_count (r : ℚ) (pat : FailurePattern)
    (st : ProviderState) : (shouldFail r pat st).2.call_count = st.call_count := by
  unfold shouldFail
  by_cases h : r = 0
  · simp [h]
  · simp only [if_neg h]
    cases pat
    · rfl
    · dsimp only
      split <;> rfl
    · dsimp only
      split
      · rfl
      · split <;> rfl

/-- The post-check body of `call` returns the provider state unchanged,
sleeps exactly the configured latency, and never produces a rate-limit or
pattern failure. -/
lemma llmCallBody_state (p : LLMParams) (st2 : ProviderState) (model : String)
    (messages : List String) (hasTools : Bool) :
    (llmCallBody p st2 model messages hasTools).2.1 = st2 ∧
    (llmCallBody p st2 model messages hasTools).2.2 = p.latency_ms ∧
    isRateLimit (llmCallBody p st2 model messages hasTools).1 = false ∧
    isMockFailure (llmCallBody p st2 model messages hasTools).1 = false := by
  unfold llmCallBody
  split
  · exact ⟨rfl, rfl, rfl, rfl⟩
  · dsimp only
    split
    · split
      · exact ⟨rfl, rfl, rfl, rfl⟩
      · exact ⟨rfl, rfl, rfl, rfl⟩
    · split
      · exact ⟨rfl, rfl, rfl, rfl⟩
      · exact ⟨rfl, rfl, rfl, rfl⟩

/-- Characterizes `rateLimited`. -/
lemma rateLimited_iff (o : Option ℕ) (c : ℕ) :
    rateLimited o c = true ↔ ∃ n, o = some n ∧ c > n := by
  cases o <;> simp [rateLimited]

/-- A zero failure rate short-circuits the fault check: no failure, no
state change, no random sample consumed. -/
lemma shouldFail_zero (pat : FailurePattern) (st : ProviderState) :
    shouldFail 0 pat st = (false, st) := by
  simp [shouldFail]

/-- The stand-in `random()` lands strictly below 1. -/
lemma randomUnit_lt_one (s : ℕ) : (randomUnit s).1 < 1 := by
  unfold randomUnit
  dsimp only
  rw [div_lt_one (by norm_num)]
  exact_mod_cast Nat.mod_lt _ (by norm_num : (0:ℕ) < 1048576)

/-- With a failure rate of at least 1, every fault-pattern check fires,
whatever the pattern and the provider state. -/
lemma shouldFail_one (r : ℚ) (pat : FailurePattern) (st : ProviderState)
    (h : 1 ≤ r) : (shouldFail r pat st).1 = true := by
  have hne : r ≠ 0 := by intro h0; rw [h0] at h; norm_num at h
  unfold shouldFail
  rw [if_neg hne]
  cases pat
  · exact decide_eq_true (lt_of_lt_of_le (randomUnit_lt_one _) h)
  · dsimp only
    rw [if_pos h]
  · dsimp only
    by_cases hb : st.in_burst = true
    · simp [hb]
    · simp only [Bool.not_eq_true] at hb
      simp only [hb, Bool.false_eq_true, if_false]
      rw [if_pos (lt_of_lt_of_le (randomUnit_lt_one _) h)]

/-- A needle matches at the head of itself plus anything. -/
lemma leadMatch_append (n r : List Char) : leadMatch n (n ++ r) = true := by
  induction n with
  | nil => rfl
  | cons a as ih => simp [leadMatch, ih]

/-- A head match is an occurrence. -/
lemma occursIn_of_leadMatch (n h : List Char) (hl : leadMatch n h = true) :
    occursIn n h = true := by
  cases h with
  | nil =>
      cases n with
      | nil => rfl
      | cons a as => simp [leadMatch] at hl
  | cons x t => simp [occursIn, hl]

/-- Python's `n in (n + t)` is true. -/
lemma strContains_append (n t : String) : strContains (n ++ t) n = true := by
  unfold strContains
  rw [String.data_append]
  exact occursIn_of_leadMatch _ _ (leadMatch_append _ _)

/-- On strings, `n` is a leading match of `n ++ t`. -/
lemma leadMatch_str (n t : String) : leadMatch n.data (n ++ t).data = true := by
  rw [String.data_append]
  exact leadMatch_append _ _

/-- Every mock tool failure message contains the text the scenario
classifier looks for. -/
lemma toolFailureMsg_contains (pat : FailurePattern) (c : ℕ) (tool : String) :
    strContains (ToolError.msg (.mockToolFailure pat c tool))
      "Mock tool failure" = true := by
  have hsplit : ToolError.msg (.mockToolFailure pat c tool) =
      "Mock tool failure" ++ (" (pattern: " ++ (pat.str ++ (", call: " ++
        (toString c ++ ("): " ++ tool))))) := by
    show "Mock tool failure (pattern: " ++ pat.str ++ ", call: " ++ toString c
        ++ "): " ++ tool = _
    rw [show ("Mock tool failure (pattern: " : String) =
        "Mock tool failure" ++ " (pattern: " from by decide]
    simp only [String.append_assoc]
  rw [hsplit]
  exact strContains_append _ _

/-! ## C7 — call counter first, rate limit before fault check and latency -/

/-- C7: every `MockLLMProvider.call` invocation first increments the private
call counter (the state after the call carries `call_count + 1` even when
the call raises), raises `RateLimitError` iff `rate_limit_after` is
configured and the incremented count exceeds it, and on a rate-limit
rejection neither the fault-pattern state (RNG stream, burst state) nor the
simulated latency is touched: the check precedes the fault-pattern check
and the latency sleep. -/
theorem mockLLM_counter_and_rate_limit_order (p : LLMParams)
    (st : ProviderState) (model : String) (messages : List String)
    (hasTools : Bool) :
    ((llmCall p st model messages hasTools).2.1.call_count = st.call_count + 1)
    ∧ (isRateLimit (llmCall p st model messages hasTools).1 = true ↔
        ∃ n, p.rate_limit_after = some n ∧ st.call_count + 1 > n)
    ∧ (isRateLimit (llmCall p st model messages hasTools).1 = true →
        (llmCall p st model messages hasTools).2.1 =
          { st with call_count := st.call_count + 1 }
        ∧ (llmCall p st model messages hasTools).2.2 = 0) := by
  unfold llmCall
  by_cases hrl : rateLimited p.rate_limit_after (st.call_count + 1) = true
  · simp only [hrl, if_true]
    exact ⟨trivial, ⟨fun _ => (rateLimited_iff _ _).mp hrl, fun _ => rfl⟩,
      fun _ => ⟨trivial, trivial⟩⟩
  · simp only [Bool.not_eq_true] at hrl
    simp only [hrl, Bool.false_eq_true, if_false]
    by_cases hf :
        (shouldFail p.failure_rate p.failure_pattern
          { st with call_count := st.call_count + 1 }).1 = true
    · simp only [hf, if_true]
      refine ⟨shouldFail_call_count _ _ _, ⟨?_, ?_⟩, ?_⟩
      · intro h; simp [isRateLimit] at h
      · intro h; exact absurd ((rateLimited_iff _ _).mpr h) (by simp [hrl])
      · intro h; simp [isRateLimit] at h
    · simp only [Bool.not_eq_true] at hf
      simp only [hf, Bool.false_eq_true, if_false]
      have hb := llmCallBody_state p
        ((shouldFail p.failure_rate p.failure_pattern
          { st with call_count := st.call_count + 1 }).2) model messages hasTools
      refine ⟨?_, ⟨?_, ?_⟩, ?_⟩
      · rw [hb.1]; exact shouldFail_call_count _ _ _
      · intro h; rw [hb.2.2.1] at h; exact absurd h (by simp)
      · intro h; exact absurd ((rateLimited_iff _ _).mpr h) (by simp [hrl])
      · intro h; rw [hb.2.2.1] at h; exact absurd h (by simp)

/-- Witness for C7: a provider whose rate limit is already exhausted
(`rate_limit_after = 0`) rejects its first call with `RateLimitError`,
still counts the call, and slept no simulated latency. -/
theorem mockLLM_counter_and_rate_limit_order_witness :
    (llmCall { defaultLLMParams with rate_limit_after := some 0 } initState
      "gpt-4" ["hi"] false).2.1.call_count = initState.call_count + 1
    ∧ isRateLimit (llmCall { defaultLLMParams with rate_limit_after := some 0 }
        initState "gpt-4" ["hi"] false).1 = true
    ∧ (llmCall { defaultLLMParams with rate_limit_after := some 0 } initState
        "gpt-4" ["hi"] false).2.2 = 0 :=
  have h := mockLLM_counter_and_rate_limit_order
    { defaultLLMParams with rate_limit_after := some 0 } initState "gpt-4"
    ["hi"] false
  have hrl : isRateLimit (llmCall
      { defaultLLMParams with rate_limit_after := some 0 } initState "gpt-4"
      ["hi"] false).1 = true :=
    h.2.1.mpr ⟨0, rfl, by decide⟩
  ⟨h.1, hrl, (h.2.2 hrl).2⟩

/-- With a fault-free mock LLM provider (no failure rate, no rate limit, no
token ceiling), the weather question takes the tool-call path: the call
returns a response whose tool call is `get_weather` for Paris. -/
lemma llmCall_weather_toolcall (lp : LLMParams) (st : ProviderState)
    (hlr : lp.failure_rate = 0) (hrl : lp.rate_limit_after = none)
    (hmt : lp.max_tokens = none) :
    ∃ resp, (llmCall lp st "gpt-4" [systemMessage, toolFailureMessage] true).1
        = .ok resp ∧ resp.tool_calls = some ("get_weather", "Paris") := by
  have hw : strContains (lowerStr toolFailureMessage) "weather" = true := by
    decide
  simp only [llmCall, hrl, hlr, rateLimited, shouldFail_zero, llmCallBody,
    List.getLast?_cons_cons, List.getLast?_singleton, hw, hmt, tokenGate,
    Bool.true_and, Bool.true_or, if_true, if_false, Bool.false_eq_true]
  exact ⟨_, rfl, rfl⟩

/-- With failure rate ≥ 1, `execute` raises the mock tool failure on every
call, whatever the pattern and the provider state. -/
lemma toolExecute_fails_of_rate_one (p : ToolParams) (st : ProviderState)
    (tool : String) (args : List (String × String))
    (h : 1 ≤ p.failure_rate) :
    ∃ c, (toolExecute p st tool args).1 =
      .error (.mockToolFailure p.failure_pattern c tool) := by
  simp only [toolExecute, shouldFail_one _ _ _ h, if_true]
  exact ⟨_, rfl⟩

/-! ## C5 — ToolFailureScenario classification -/

/-- C5: with a `MockToolProvider` at failure rate 1.0 (any pattern — its
`execute` always raises the "Mock tool failure …" exception) wired to an
agent whose LLM provider is a fault-free mock, `ToolFailureScenario`'s
classification reports success with an error message starting
"Expected tool failure:"; an exception whose text contains neither
"Mock tool failure" nor "Tool execution failed" is classified
`success = false` instead. -/
theorem toolFailure_scenario_classification (lp : LLMParams) (tp : ToolParams)
    (st : AgentState) (e : String)
    (hlr : lp.failure_rate = 0) (hrl : lp.rate_limit_after = none)
    (hmt : lp.max_tokens = none) (htp : 1 ≤ tp.failure_rate) :
    ((classifyToolFailure (agentInvoke lp tp st toolFailureMessage).1).success
        = true
      ∧ ∃ m, (classifyToolFailure
            (agentInvoke lp tp st toolFailureMessage).1).error_message = some m
          ∧ leadMatch "Expected tool failure:".data m.data = true)
    ∧ (strContains e "Mock tool failure" = false →
        strContains e "Tool execution failed" = false →
        (classifyToolFailure (.error e)).success = false) := by
  constructor
  · obtain ⟨resp, h1, h2⟩ := llmCall_weather_toolcall lp st.llm hlr hrl hmt
    obtain ⟨c, h3⟩ :=
      toolExecute_fails_of_rate_one tp st.tool "get_weather"
        [("location", "Paris")] htp
    have hmsg := toolFailureMsg_contains tp.failure_pattern c "get_weather"
    unfold agentInvoke
    dsimp only
    rw [h1]
    dsimp only
    rw [h2]
    dsimp only
    rw [h3]
    simp only [classifyToolFailure, hmsg, Bool.true_or, if_true]
    refine ⟨trivial, _, rfl, ?_⟩
    rw [show ("Expected tool failure: " : String) =
        "Expected tool failure:" ++ " " from by decide, String.append_assoc]
    exact leadMatch_str _ _
  · intro h1 h2
    simp [classifyToolFailure, h1, h2]

/-- Witness for C5: the default mock LLM provider with a failure-rate-1
tool provider, both freshly constructed, and the unrelated exception
`"boom"`. -/
theorem toolFailure_scenario_witness :
    (classifyToolFailure (agentInvoke defaultLLMParams
        { failure_rate := 1, latency_ms := 200, failure_pattern := .random,
          completeness_ratio := 1 }
        { llm := initState, tool := initState } toolFailureMessage).1).success
      = true
    ∧ (classifyToolFailure (.error "boom")).success = false :=
  have h := toolFailure_scenario_classification defaultLLMParams
    { failure_rate := 1, latency_ms := 200, failure_pattern := .random,
      completeness_ratio := 1 }
    { llm := initState, tool := initState } "boom" rfl rfl rfl (by norm_num)
  ⟨h.1.1, h.2 (by decide) (by decide)⟩

/-! ## C1 — a scenario exception does not become a failed result (code bug)

The `ScenarioResult` dataclass declares only five fields, yet the runner's
exception branch constructs it with `fault_injection_enabled` and
`active_fault_profiles` keyword arguments and later reads those attributes:
the construction raises `TypeError` and aborts the scenario loop instead of
appending a failed result and continuing. -/

/-- C1 (code bug evidence): with a scenario whose `execute` raises, the
embedded `_execute_scenarios` loop terminates with the constructor
`TypeError` — the following configured scenario is never executed and no
failed result is appended — because the keyword set of the runner's
exception branch is not contained in the dataclass's declared fields. -/
theorem runner_scenario_exception_aborts :
    executeScenarios false []
        [("simple_tool_call", .raises "boom"),
         ("tool_failure", .result true 1 none none)] = .error ctorTypeError
    ∧ ctorAccepts scenarioResultFields runnerExceptKwargs = false :=
  ⟨rfl, rfl⟩

/-! ## C2 — exit code (code bug)

`_generate_summary`'s failed-scenario report reads
`result.fault_injection_enabled` on every failed result, but that attribute
is only ever set when fault injection is enabled (runner.py 267-271): with
fault injection disabled, a failed scenario makes the summary raise
`AttributeError`, so `run` crashes instead of returning exit code 1. -/

/-- C2 (code bug evidence): with fault injection disabled and one failed
scenario, the embedded run raises `AttributeError` instead of returning
exit code 1; the all-passing case (an unknown scenario name being skipped
without affecting the exit code) returns 0, and with fault injection
enabled a failure does return exit code 1. -/
theorem runner_exit_code_crashes_on_failure :
    runCanary false []
        [("simple_tool_call", .result false (3/2)
            (some "Mock tool failure (pattern: random, call: 1): get_weather")
            (some "conv"))]
      = .error "AttributeError: fault_injection_enabled"
    ∧ runCanary false []
        [("simple_tool_call", .result true 1 none none),
         ("bogus_scenario", .result false 1 none none)] = .ok 0
    ∧ runCanary true ["intermittent_failures"]
        [("simple_tool_call", .result false 1 (some "x") none)] = .ok 1 :=
  ⟨rfl, rfl, rfl⟩

/-! ## C8 — disabled fault injection is indistinguishable from none -/

/-- C8: in mock mode, `create_from_config` with a fault configuration whose
`enabled` flag is false builds exactly the providers it builds with no
fault configuration at all — the same parameters, hence LLM and tool
providers with identical behaviour (responses and raised exceptions) over
every identical call sequence from any identical starting state; and a
failure rate of `0.0` makes the fault-pattern check report "no failure"
without consuming a random sample (the provider state is returned intact). -/
theorem factory_disabled_faults_equivalent (cfg : AgentConfig)
    (ps : List FaultProfile) :
    (createFromConfigMock cfg (some { enabled := false, profiles := ps }) =
      createFromConfigMock cfg none)
    ∧ (∀ (st : ProviderState) (inputs : List (String × List String × Bool)),
        llmSeq
          (createFromConfigMock cfg (some { enabled := false, profiles := ps })).1
          st inputs =
        llmSeq (createFromConfigMock cfg none).1 st inputs)
    ∧ (∀ (st : ProviderState) (tool : String)
        (args : List (String × String)) (n : ℕ),
        toolRun
          (createFromConfigMock cfg (some { enabled := false, profiles := ps })).2
          st tool args n =
        toolRun (createFromConfigMock cfg none).2 st tool args n)
    ∧ (∀ (pat : FailurePattern) (st : ProviderState),
        shouldFail 0 pat st = (false, st)) := by
  refine ⟨rfl, fun st inputs => rfl, fun st tool args n => rfl, fun pat st => ?_⟩
  simp [shouldFail]

/-! ## C9 — determinism of identically configured providers -/

/-- C9: two `MockLLMProvider` instances constructed with identical
parameters (both starting from the freshly constructed state: call count 0,
no burst, the generator seeded with the fixed 42) and invoked with the same
sequence of `(model, messages, tools)` arguments produce identical results
on every call — the same response text and tool calls, and the same
success/failure outcomes. -/
theorem mockLLM_deterministic (p₁ p₂ : LLMParams)
    (inputs₁ inputs₂ : List (String × List String × Bool))
    (hp : p₁ = p₂) (hi : inputs₁ = inputs₂) :
    llmSeq p₁ initState inputs₁ = llmSeq p₂ initState inputs₂ := by
  subst hp; subst hi; rfl

/-- Witness for C9 at a concrete configuration and call sequence. -/
theorem mockLLM_deterministic_witness :
    llmSeq defaultLLMParams initState
        [("gpt-4", [systemMessage, toolFailureMessage], true),
         ("gpt-4", [systemMessage, "hello"], false)] =
      llmSeq defaultLLMParams initState
        [("gpt-4", [systemMessage, toolFailureMessage], true),
         ("gpt-4", [systemMessage, "hello"], false)] :=
  mockLLM_deterministic _ _ _ _ rfl rfl

/-! ## C10 — response truncation (corrected) -/

/-- Counterexample to C10 as stated: a string sitting inside a list that is
itself inside a list is NOT truncated — `_truncate_response` with ratio 1/2
returns the nested `"hello"` unchanged, while the claim requires its
2-character prefix `"he"`. -/
theorem truncate_nested_list_counterexample :
    truncateResponse (1/2) [("k", .arr [.arr [.s "hello"]])] =
      [("k", JValue.arr [.arr [.s "hello"]])]
    ∧ strTruncate (1/2) "hello" = "he"
    ∧ ("hello" : String) ≠ "he" := by
  refine ⟨?_, ?_, by decide⟩
  · have h : ¬ (1 : ℚ) ≤ 1/2 := by norm_num
    simp [truncateResponse, truncDict, truncDictVal, truncItems, truncItem, h]
  · have h1 : strLen "hello" = 5 := by decide
    have h2 : (⌊(5 : ℚ) * (1/2)⌋).toNat = 2 := by
      rw [show ⌊(5 : ℚ) * (1/2)⌋ = 2 by norm_num]; rfl
    simp only [strTruncate, h1]
    rw [show ((5 : ℕ) : ℚ) = (5 : ℚ) by norm_num, h2]
    decide

/-- The dictionary loop is a pointwise map. -/
lemma truncDict_eq_map (ratio : ℚ) (kvs : List (String × JValue)) :
    truncDict ratio kvs = kvs.map (fun kv => (kv.1, truncDictVal ratio kv.2)) := by
  induction kvs with
  | nil => simp [truncDict]
  | cons kv rest ih => cases kv; simp [truncDict, ih]

/-- The list-item loop is a pointwise map. -/
lemma truncItems_eq_map (ratio : ℚ) (items : List JValue) :
    truncItems ratio items = items.map (truncItem ratio) := by
  induction items with
  | nil => simp [truncItems]
  | cons item rest ih => simp [truncItems, ih]

/-- C10 amended: `_truncate_response` with ratio ≥ 1 returns its argument
unchanged; for every ratio it preserves the key list exactly; below ratio 1
it maps every entry in place, truncating string values to their
`⌊L·ratio⌋`-prefix, recursing into dictionary values, processing list
values element-wise (strings truncated, dictionaries recursed), leaving
non-string non-dict non-list values unchanged — but an element of a list
nested directly inside another list is returned as is, strings included;
being a total function, it never raises. -/
theorem truncateResponse_amended (ratio : ℚ) (kvs dd : List (String × JValue))
    (s : String) (v : ℤ) (items : List JValue) :
    ((truncateResponse ratio kvs).map Prod.fst = kvs.map Prod.fst)
    ∧ (1 ≤ ratio → truncateResponse ratio kvs = kvs)
    ∧ (ratio < 1 → truncateResponse ratio kvs =
        kvs.map (fun kv => (kv.1, truncDictVal ratio kv.2)))
    ∧ truncDictVal ratio (.s s) = .s (strTruncate ratio s)
    ∧ truncDictVal ratio (.n v) = .n v
    ∧ truncDictVal ratio (.dict dd) = .dict (truncateResponse ratio dd)
    ∧ truncDictVal ratio (.arr items) = .arr (items.map (truncItem ratio))
    ∧ truncItem ratio (.s s) = .s (strTruncate ratio s)
    ∧ truncItem ratio (.n v) = .n v
    ∧ truncItem ratio (.dict dd) = .dict (truncateResponse ratio dd)
    ∧ truncItem ratio (.arr items) = .arr items := by
  have hmap : ∀ l : List (String × JValue),
      (l.map (fun kv : String × JValue => (kv.1, truncDictVal ratio kv.2))).map
        Prod.fst = l.map Prod.fst := by
    intro l; rw [List.map_map]; rfl
  refine ⟨?_, ?_, ?_, ?_, ?_, ?_, ?_, ?_, ?_, ?_, ?_⟩
  · by_cases h : 1 ≤ ratio
    · simp only [truncateResponse, if_pos h]
    · simp only [truncateResponse, if_neg h]
      rw [truncDict_eq_map, hmap]
  · intro h; simp only [truncateResponse, if_pos h]
  · intro h
    simp only [truncateResponse, if_neg (not_le.mpr h)]
    exact truncDict_eq_map _ _
  · simp [truncDictVal]
  · simp [truncDictVal]
  · simp [truncDictVal]
  · simp [truncDictVal, truncItems_eq_map]
  · simp [truncItem]
  · simp [truncItem]
  · simp [truncItem]
  · simp [truncItem]

/-- Witness for C10's amended theorem: concrete instances of the identity
at ratio 2 and of the pointwise truncation at ratio 1/2. -/
theorem truncateResponse_amended_witness :
    truncateResponse 2 [("a", JValue.s "hello")] = [("a", JValue.s "hello")]
    ∧ truncateResponse (1/2) [("a", JValue.s "hello")] =
        [("a", JValue.s "hello")].map
          (fun kv => (kv.1, truncDictVal (1/2) kv.2)) :=
  ⟨(truncateResponse_amended 2 [("a", JValue.s "hello")] [] "" 0 []).2.1
      (by norm_num),
   (truncateResponse_amended (1/2) [("a", JValue.s "hello")] [] "" 0
      []).2.2.1 (by norm_num)⟩


/-- C6: on a call with non-empty messages that passes the rate-limit and
fault-pattern checks, the prompt tokens are `max 1 (chars/4)` over the
space-joined contents, the completion tokens are 25 on the tool-call path
and `max 1 (len/4)` of the (possibly truncated) canned text otherwise, and
the call raises `TokenLimitError(total, max)` precisely when a token
ceiling is configured and `prompt + completion` exceeds it — with no
ceiling it never fails for token reasons. -/
theorem mockLLM_token_accounting (p : LLMParams) (st : ProviderState)
    (model : String) (messages : List String) (hasTools : Bool) (last : String)
    (hlast : messages.getLast? = some last)
    (hrl : rateLimited p.rate_limit_after (st.call_count + 1) = false)
    (hff : (shouldFail p.failure_rate p.failure_pattern
      { st with call_count := st.call_count + 1 }).1 = false) :
    (∀ m, p.max_tokens = some m →
        promptTokensOf messages + completionTokensOf p last hasTools > m →
        tokenLimitPayload (llmCall p st model messages hasTools).1 =
          some (promptTokensOf messages + completionTokensOf p last hasTools, m))
    ∧ ((p.max_tokens = none ∨ ∃ m, p.max_tokens = some m ∧
          promptTokensOf messages + completionTokensOf p last hasTools ≤ m) →
        resultTokens (llmCall p st model messages hasTools).1 =
          some (promptTokensOf messages, completionTokensOf p last hasTools,
            promptTokensOf messages + completionTokensOf p last hasTools)) := by
  unfold llmCall
  simp only [hrl, Bool.false_eq_true, if_false, hff]
  unfold llmCallBody
  rw [hlast]
  by_cases hb : (hasTools && (strContains (lowerStr last) "weather"
      || strContains (lowerStr last) "temperature")) = true
  · simp only [hb, if_true]
    have hct : completionTokensOf p last hasTools = 25 := by
      unfold completionTokensOf
      rw [if_pos hb]
    by_cases hg : tokenGate p.max_tokens
        (max 1 (strLen (joinSpace messages) / 4) + 25) = true
    · simp only [hg, if_true]
      constructor
      · intro m hm hgt
        simp only [tokenLimitPayload, promptTokensOf, hct]
        rw [hm]
        simp
      · intro hcase
        exfalso
        rcases hcase with hnone | ⟨m, hm, hle⟩
        · rw [hnone] at hg
          simp [tokenGate] at hg
        · rw [hm] at hg
          simp only [tokenGate, gt_iff_lt, decide_eq_true_eq] at hg
          rw [promptTokensOf, hct] at hle
          omega
    · simp only [Bool.not_eq_true] at hg
      simp only [hg, Bool.false_eq_true, if_false]
      constructor
      · intro m hm hgt
        exfalso
        rw [hm] at hg
        simp only [tokenGate, decide_eq_false_iff_not, not_lt] at hg
        rw [promptTokensOf, hct] at hgt
        omega
      · intro _
        simp [resultTokens, promptTokensOf, hct]
  · simp only [Bool.not_eq_true] at hb
    simp only [hb, Bool.false_eq_true, if_false]
    have hct : completionTokensOf p last hasTools =
        max 1 (strLen (truncatedResponseText p.completeness_ratio) / 4) := by
      unfold completionTokensOf
      rw [if_neg (by simp [hb])]
    by_cases hg : tokenGate p.max_tokens
        (max 1 (strLen (joinSpace messages) / 4)
          + max 1 (strLen (truncatedResponseText p.completeness_ratio) / 4)) = true
    · simp only [hg, if_true]
      constructor
      · intro m hm hgt
        simp only [tokenLimitPayload, promptTokensOf, hct]
        rw [hm]
        simp
      · intro hcase
        exfalso
        rcases hcase with hnone | ⟨m, hm, hle⟩
        · rw [hnone] at hg
          simp [tokenGate] at hg
        · rw [hm] at hg
          simp only [tokenGate, gt_iff_lt, decide_eq_true_eq] at hg
          rw [promptTokensOf, hct] at hle
          omega
    · simp only [Bool.not_eq_true] at hg
      simp only [hg, Bool.false_eq_true, if_false]
      constructor
      · intro m hm hgt
        exfalso
        rw [hm] at hg
        simp only [tokenGate, decide_eq_false_iff_not, not_lt] at hg
        rw [promptTokensOf, hct] at hgt
        omega
      · intro _
        simp [resultTokens, promptTokensOf, hct]


lemma truncatedResponseText_one : truncatedResponseText 1 = mockResponseText := by
  unfold truncatedResponseText
  rw [if_neg (lt_irrefl 1)]

theorem mockLLM_token_accounting_witness :
    resultTokens (llmCall defaultLLMParams initState "gpt-4"
      ["hello world"] false).1 = some (2, 11, 13)
    ∧ tokenLimitPayload (llmCall { defaultLLMParams with max_tokens := some 5 }
        initState "gpt-4" ["hello world"] false).1 = some (13, 5) := by
  have hct : completionTokensOf defaultLLMParams "hello world" false = 11 := by
    unfold completionTokensOf
    simp only [Bool.false_and, Bool.false_eq_true, if_false]
    show max 1 (strLen (truncatedResponseText 1) / 4) = 11
    rw [truncatedResponseText_one]
    decide
  have hctB : completionTokensOf
      { defaultLLMParams with max_tokens := some 5 } "hello world" false = 11 := by
    unfold completionTokensOf
    simp only [Bool.false_and, Bool.false_eq_true, if_false]
    show max 1 (strLen (truncatedResponseText 1) / 4) = 11
    rw [truncatedResponseText_one]
    decide
  constructor
  · have h1 := (mockLLM_token_accounting defaultLLMParams initState "gpt-4"
      ["hello world"] false "hello world" rfl rfl
      (by show (shouldFail 0 FailurePattern.random _).1 = false
          rw [shouldFail_zero])).2 (Or.inl rfl)
    rw [h1, hct]
    decide
  · have h2 := (mockLLM_token_accounting
      { defaultLLMParams with max_tokens := some 5 } initState "gpt-4"
      ["hello world"] false "hello world" rfl rfl
      (by show (shouldFail 0 FailurePattern.random _).1 = false
          rw [shouldFail_zero])).1 5 rfl (by rw [hctB]; decide)
    rw [h2, hctB]
    decide


lemma llmCall_periodic_flag (r : ℚ) (st : ProviderState)
    (h0 : 0 < r) (h1 : r < 1) :
    isMockFailure (llmCall (mkPeriodicParams r) st "gpt-4" ["ping"] false).1 =
      decide ((st.call_count + 1) % (⌊(1:ℚ)/r⌋).toNat = 0)
    ∧ (llmCall (mkPeriodicParams r) st "gpt-4" ["ping"] false).2.1 =
      { st with call_count := st.call_count + 1 } := by
  have hper : shouldFail r .periodic { st with call_count := st.call_count + 1 }
      = (decide ((st.call_count + 1) % (⌊(1:ℚ)/r⌋).toNat = 0),
         { st with call_count := st.call_count + 1 }) := by
    unfold shouldFail
    rw [if_neg h0.ne']
    dsimp only
    rw [if_neg (not_le.mpr h1)]
  unfold llmCall
  simp only [mkPeriodicParams, rateLimited, Bool.false_eq_true, if_false, hper]
  by_cases hc : (st.call_count + 1) % (⌊(1:ℚ)/r⌋).toNat = 0
  · have hd := decide_eq_true (p := (st.call_count + 1) % (⌊(1:ℚ)/r⌋).toNat = 0) hc
    simp only [hd, if_true]
    exact ⟨rfl, trivial⟩
  · have hd := decide_eq_false hc
    have hb := llmCallBody_state (mkPeriodicParams r)
      { st with call_count := st.call_count + 1 } "gpt-4" ["ping"] false
    simp only [hd, Bool.false_eq_true, if_false]
    exact ⟨hb.2.2.2, hb.1⟩


lemma llmFailFlags_cons (p : LLMParams) (st : ProviderState)
    (messages : List String) (hasTools : Bool) (n : ℕ) :
    llmFailFlags p st messages hasTools (n + 1) =
      isMockFailure (llmCall p st "gpt-4" messages hasTools).1 ::
        llmFailFlags p (llmCall p st "gpt-4" messages hasTools).2.1 messages
          hasTools n := by
  rfl

lemma llmFailFlags_periodic (r : ℚ) (h0 : 0 < r) (h1 : r < 1) :
    ∀ (N : ℕ) (st : ProviderState),
      llmFailFlags (mkPeriodicParams r) st ["ping"] false N =
        (List.range N).map
          (fun i => decide ((st.call_count + i + 1) % (⌊(1:ℚ)/r⌋).toNat = 0)) := by
  intro N
  induction N with
  | zero => intro st; rfl
  | succ n ih =>
      intro st
      obtain ⟨hflag, hstate⟩ := llmCall_periodic_flag r st h0 h1
      rw [llmFailFlags_cons, hflag, hstate, ih]
      rw [List.range_succ_eq_map, List.map_cons, List.map_map]
      refine congrArg₂ List.cons ?_ ?_
      · simp
      · refine List.map_congr_left fun i _ => ?_
        have h : st.call_count + 1 + i + 1 = st.call_count + (i + 1) + 1 := by
          omega
        exact congrArg (fun x => decide (x % (⌊(1:ℚ)/r⌋).toNat = 0)) h

lemma count_true_multiples (m : ℕ) :
    ∀ N : ℕ,
      ((List.range N).map (fun i => decide ((i + 1) % m = 0))).count true =
        N / m := by
  intro N
  induction N with
  | zero => simp
  | succ n ih =>
      rw [List.range_succ, List.map_append, List.count_append, ih,
        Nat.succ_div]
      by_cases hd : (n + 1) % m = 0
      · have hdvd : m ∣ n + 1 := Nat.dvd_of_mod_eq_zero hd
        simp [hd, hdvd]
      · have hndvd : ¬ m ∣ n + 1 := fun h => hd (Nat.mod_eq_zero_of_dvd h)
        simp [hd, hndvd]


lemma llmCall_rate_one_fails (p : LLMParams) (st : ProviderState)
    (model : String) (messages : List String) (hasTools : Bool)
    (hp : 1 ≤ p.failure_rate) (hrl : p.rate_limit_after = none) :
    isMockFailure (llmCall p st model messages hasTools).1 = true := by
  unfold llmCall
  simp only [hrl, rateLimited, Bool.false_eq_true, if_false,
    shouldFail_one _ _ _ hp, if_true]
  rfl

lemma llmFailFlags_rate_one (p : LLMParams) (messages : List String)
    (hasTools : Bool) (hp : 1 ≤ p.failure_rate)
    (hrl : p.rate_limit_after = none) :
    ∀ (N : ℕ) (st : ProviderState),
      llmFailFlags p st messages hasTools N = List.replicate N true := by
  intro N
  induction N with
  | zero => intro st; rfl
  | succ n ih =>
      intro st
      rw [llmFailFlags_cons, llmCall_rate_one_fails p st _ _ _ hp hrl, ih,
        List.replicate_succ]

/-- C3: for the periodic pattern with rate `0 < r < 1` and a freshly
constructed provider, the `N` first calls fail exactly at the 1-indexed
call counts that are multiples of `⌊1/r⌋`, for a total of `⌊N/⌊1/r⌋⌋`
failures; with rate ≥ 1 every call fails. -/
theorem mockLLM_periodic_failures (r r' : ℚ) (N : ℕ)
    (h0 : 0 < r) (h1 : r < 1) (h2 : 1 ≤ r') :
    (llmFailFlags (mkPeriodicParams r) initState ["ping"] false N =
       (List.range N).map (fun i => decide ((i + 1) % (⌊(1:ℚ)/r⌋).toNat = 0)))
    ∧ ((llmFailFlags (mkPeriodicParams r) initState ["ping"] false N).count true
        = N / (⌊(1:ℚ)/r⌋).toNat)
    ∧ llmFailFlags (mkPeriodicParams r') initState ["ping"] false N =
        List.replicate N true := by
  have hflags := llmFailFlags_periodic r h0 h1 N initState
  have hzero : ∀ i : ℕ, initState.call_count + i + 1 = i + 1 := fun i => by
    simp [initState]
  have hmain : llmFailFlags (mkPeriodicParams r) initState ["ping"] false N =
      (List.range N).map (fun i => decide ((i + 1) % (⌊(1:ℚ)/r⌋).toNat = 0)) := by
    rw [hflags]
    exact List.map_congr_left fun i _ =>
      congrArg (fun x => decide (x % (⌊(1:ℚ)/r⌋).toNat = 0)) (hzero i)
  refine ⟨hmain, ?_, llmFailFlags_rate_one _ _ _ h2 rfl N initState⟩
  rw [hmain]
  exact count_true_multiples _ N

/-- Witness for C3 at `r = 1/5` over 10 calls: exactly 2 failures, at the
5th and 10th call; and at rate 1 all ten calls fail. -/
theorem mockLLM_periodic_failures_witness :
    llmFailFlags (mkPeriodicParams (1/5)) initState ["ping"] false 10 =
      [false, false, false, false, true, false, false, false, false, true]
    ∧ (llmFailFlags (mkPeriodicParams (1/5)) initState ["ping"] false
        10).count true = 2
    ∧ llmFailFlags (mkPeriodicParams 1) initState ["ping"] false 10 =
        List.replicate 10 true := by
  have h := mockLLM_periodic_failures (1/5) 1 10 (by norm_num) (by norm_num)
    (le_refl 1)
  have hper : (⌊(1:ℚ)/(1/5)⌋).toNat = 5 := by
    rw [show ⌊(1:ℚ)/(1/5)⌋ = 5 by norm_num]
    rfl
  refine ⟨?_, ?_, h.2.2⟩
  · rw [h.1, hper]
    decide
  · rw [h.2.1, hper]


lemma shouldFail_burst_trigger (r : ℚ) (st : ProviderState) (h0 : 0 < r)
    (hb : st.in_burst = false) (hq : (randomUnit st.rng).1 < r) :
    shouldFail r .burst st =
      (true,
       { st with
         in_burst := true,
         burst_remaining := ((randomIntRange 2 4 (randomUnit st.rng).2).1 : ℤ),
         rng := (randomIntRange 2 4 (randomUnit st.rng).2).2 }) := by
  unfold shouldFail
  rw [if_neg h0.ne']
  dsimp only
  rw [if_neg (by simp [hb]), if_pos hq]

lemma shouldFail_burst_in (r : ℚ) (st : ProviderState) (h0 : 0 < r)
    (hb : st.in_burst = true) :
    shouldFail r .burst st =
      (true,
       { st with
         burst_remaining := st.burst_remaining - 1,
         in_burst := if st.burst_remaining - 1 ≤ 0 then false else true }) := by
  unfold shouldFail
  rw [if_neg h0.ne']
  dsimp only
  rw [if_pos hb]

lemma shouldFail_burst_skip (r : ℚ) (st : ProviderState) (h0 : 0 < r)
    (hb : st.in_burst = false) (hq : ¬ (randomUnit st.rng).1 < r) :
    shouldFail r .burst st = (false, { st with rng := (randomUnit st.rng).2 }) := by
  unfold shouldFail
  rw [if_neg h0.ne']
  dsimp only
  rw [if_neg (by simp [hb]), if_neg hq]

lemma llmCall_of_shouldFail_true (p : LLMParams) (st : ProviderState)
    (model : String) (messages : List String) (hasTools : Bool)
    (hrl : p.rate_limit_after = none)
    (hsf : (shouldFail p.failure_rate p.failure_pattern
      { st with call_count := st.call_count + 1 }).1 = true) :
    isMockFailure (llmCall p st model messages hasTools).1 = true
    ∧ (llmCall p st model messages hasTools).2.1 =
      (shouldFail p.failure_rate p.failure_pattern
        { st with call_count := st.call_count + 1 }).2 := by
  unfold llmCall
  simp only [hrl, rateLimited, Bool.false_eq_true, if_false, hsf, if_true]
  exact ⟨by trivial, by trivial⟩

lemma llmCall_of_shouldFail_false (p : LLMParams) (st : ProviderState)
    (model : String) (messages : List String) (hasTools : Bool)
    (hrl : p.rate_limit_after = none)
    (hsf : (shouldFail p.failure_rate p.failure_pattern
      { st with call_count := st.call_count + 1 }).1 = false) :
    isMockFailure (llmCall p st model messages hasTools).1 = false
    ∧ (llmCall p st model messages hasTools).2.1 =
      (shouldFail p.failure_rate p.failure_pattern
        { st with call_count := st.call_count + 1 }).2 := by
  unfold llmCall
  simp only [hrl, rateLimited, Bool.false_eq_true, if_false, hsf, if_true]
  exact ⟨(llmCallBody_state _ _ _ _ _).2.2.2, (llmCallBody_state _ _ _ _ _).1⟩

lemma llmRun_zero_snd (p : LLMParams) (st : ProviderState)
    (messages : List String) (hasTools : Bool) :
    (llmRun p st messages hasTools 0).2 = st := rfl

lemma llmRun_succ_snd (p : LLMParams) (st : ProviderState)
    (messages : List String) (hasTools : Bool) (n : ℕ) :
    (llmRun p st messages hasTools (n + 1)).2 =
      (llmRun p (llmCall p st "gpt-4" messages hasTools).2.1 messages hasTools
        n).2 := rfl

lemma llmRun_burst_drain (p : LLMParams) (messages : List String)
    (hasTools : Bool) (hp : p.failure_pattern = .burst)
    (h0 : 0 < p.failure_rate) (hrl : p.rate_limit_after = none) :
    ∀ (b cc : ℕ) (br : ℤ) (rg : ℕ), br = ((b + 1 : ℕ) : ℤ) →
      llmFailFlags p ⟨cc, true, br, rg⟩ messages hasTools (b + 1) =
        List.replicate (b + 1) true
      ∧ (llmRun p ⟨cc, true, br, rg⟩ messages hasTools (b + 1)).2 =
        ⟨cc + (b + 1), false, 0, rg⟩ := by
  intro b
  induction b with
  | zero =>
      intro cc br rg hbr
      subst hbr
      have hsf : shouldFail p.failure_rate p.failure_pattern
          ⟨cc + 1, true, ((0 + 1 : ℕ) : ℤ), rg⟩ =
          (true, ⟨cc + 1, false, 0, rg⟩) := by
        rw [hp, shouldFail_burst_in _ _ h0 rfl]
        norm_num
      obtain ⟨hflag, hstate⟩ := llmCall_of_shouldFail_true p
        ⟨cc, true, ((0 + 1 : ℕ) : ℤ), rg⟩ "gpt-4" messages hasTools hrl
        (by exact congrArg Prod.fst hsf)
      have hstate' : (llmCall p ⟨cc, true, ((0 + 1 : ℕ) : ℤ), rg⟩ "gpt-4"
          messages hasTools).2.1 = ⟨cc + 1, false, 0, rg⟩ :=
        hstate.trans (congrArg Prod.snd hsf)
      constructor
      · rw [llmFailFlags_cons, hflag, hstate']
        rfl
      · rw [llmRun_succ_snd, hstate', llmRun_zero_snd]
  | succ b ih =>
      intro cc br rg hbr
      subst hbr
      have hsf : shouldFail p.failure_rate p.failure_pattern
          ⟨cc + 1, true, ((b + 1 + 1 : ℕ) : ℤ), rg⟩ =
          (true, ⟨cc + 1, true, ((b + 1 : ℕ) : ℤ), rg⟩) := by
        rw [hp, shouldFail_burst_in _ _ h0 rfl]
        dsimp only
        rw [show ((b + 1 + 1 : ℕ) : ℤ) - 1 = ((b + 1 : ℕ) : ℤ) from by
          push_cast; ring]
        rw [if_neg (by push_cast; omega : ¬ ((b + 1 : ℕ) : ℤ) ≤ 0)]
      obtain ⟨hflag, hstate⟩ := llmCall_of_shouldFail_true p
        ⟨cc, true, ((b + 1 + 1 : ℕ) : ℤ), rg⟩ "gpt-4" messages hasTools hrl
        (by exact congrArg Prod.fst hsf)
      have hstate' : (llmCall p ⟨cc, true, ((b + 1 + 1 : ℕ) : ℤ), rg⟩ "gpt-4"
          messages hasTools).2.1 = ⟨cc + 1, true, ((b + 1 : ℕ) : ℤ), rg⟩ :=
        hstate.trans (congrArg Prod.snd hsf)
      obtain ⟨flags_ih, state_ih⟩ := ih (cc + 1) _ rg rfl
      constructor
      · rw [llmFailFlags_cons, hflag, hstate', flags_ih]
        simp [List.replicate_succ]
      · rw [llmRun_succ_snd, hstate', state_ih]
        have harith : cc + 1 + (b + 1) = cc + (b + 1 + 1) := by omega
        rw [harith]


lemma randomIntRange_bounds (lo hi s : ℕ) (h : lo ≤ hi) :
    lo ≤ (randomIntRange lo hi s).1 ∧ (randomIntRange lo hi s).1 ≤ hi := by
  unfold randomIntRange
  dsimp only
  have hm : rngStep s % (hi - lo + 1) < hi - lo + 1 :=
    Nat.mod_lt _ (by omega)
  omega

/-- C4: with the burst pattern, a call that triggers a burst (not in a
burst, sample below the rate) itself fails; the drawn burst length lies in
{2, 3, 4}; the following that-many calls all fail while consuming no random
sample (the generator state is unchanged across them); only after the last
of them is the provider out of the burst (remaining 0), with a call from a
non-burst state whose sample is not below the rate succeeding the pattern
check. -/
theorem mockLLM_burst_behavior (p : LLMParams) (st : ProviderState)
    (messages : List String) (hasTools : Bool)
    (hp : p.failure_pattern = .burst) (h0 : 0 < p.failure_rate)
    (hrl : p.rate_limit_after = none)
    (hb : st.in_burst = false)
    (hq : (randomUnit st.rng).1 < p.failure_rate) :
    isMockFailure (llmCall p st "gpt-4" messages hasTools).1 = true
    ∧ 2 ≤ (randomIntRange 2 4 (randomUnit st.rng).2).1
    ∧ (randomIntRange 2 4 (randomUnit st.rng).2).1 ≤ 4
    ∧ llmFailFlags p (llmCall p st "gpt-4" messages hasTools).2.1 messages
        hasTools (randomIntRange 2 4 (randomUnit st.rng).2).1 =
      List.replicate (randomIntRange 2 4 (randomUnit st.rng).2).1 true
    ∧ (llmRun p (llmCall p st "gpt-4" messages hasTools).2.1 messages hasTools
        (randomIntRange 2 4 (randomUnit st.rng).2).1).2 =
      { call_count :=
          st.call_count + 1 + (randomIntRange 2 4 (randomUnit st.rng).2).1,
        in_burst := false, burst_remaining := 0,
        rng := (randomIntRange 2 4 (randomUnit st.rng).2).2 }
    ∧ (∀ st' : ProviderState, st'.in_burst = false →
        ¬ (randomUnit st'.rng).1 < p.failure_rate →
        isMockFailure (llmCall p st' "gpt-4" messages hasTools).1 = false) := by
  obtain ⟨cc, ib, br, rg⟩ := st
  simp only at hb hq
  subst hb
  have hps : shouldFail p.failure_rate p.failure_pattern
      ⟨cc + 1, false, br, rg⟩ =
      (true, ⟨cc + 1, true, ((randomIntRange 2 4 (randomUnit rg).2).1 : ℤ),
        (randomIntRange 2 4 (randomUnit rg).2).2⟩) := by
    rw [hp]
    exact shouldFail_burst_trigger p.failure_rate ⟨cc + 1, false, br, rg⟩
      h0 rfl hq
  obtain ⟨hflag, hstate⟩ := llmCall_of_shouldFail_true p ⟨cc, false, br, rg⟩
    "gpt-4" messages hasTools hrl (by exact congrArg Prod.fst hps)
  have hstate' : (llmCall p ⟨cc, false, br, rg⟩ "gpt-4" messages
      hasTools).2.1 =
      ⟨cc + 1, true, ((randomIntRange 2 4 (randomUnit rg).2).1 : ℤ),
        (randomIntRange 2 4 (randomUnit rg).2).2⟩ :=
    hstate.trans (congrArg Prod.snd hps)
  obtain ⟨hlo, hhi⟩ := randomIntRange_bounds 2 4 (randomUnit rg).2 (by omega)
  have hBsucc : (randomIntRange 2 4 (randomUnit rg).2).1 - 1 + 1 =
      (randomIntRange 2 4 (randomUnit rg).2).1 := by omega
  obtain ⟨hflags, hfinal⟩ := llmRun_burst_drain p messages hasTools hp h0 hrl
    ((randomIntRange 2 4 (randomUnit rg).2).1 - 1) (cc + 1)
    ((randomIntRange 2 4 (randomUnit rg).2).1 : ℤ)
    (randomIntRange 2 4 (randomUnit rg).2).2
    (by rw [hBsucc])
  rw [hBsucc] at hflags hfinal
  refine ⟨hflag, hlo, hhi, ?_, ?_, ?_⟩
  · rw [hstate']
    exact hflags
  · rw [hstate']
    exact hfinal
  · intro st' hb' hq'
    have hps' : shouldFail p.failure_rate p.failure_pattern
        { st' with call_count := st'.call_count + 1 } =
        (false,
         { st' with
           call_count := st'.call_count + 1,
           rng := (randomUnit st'.rng).2 }) := by
      rw [hp]
      exact shouldFail_burst_skip p.failure_rate _ h0 hb' hq'
    exact (llmCall_of_shouldFail_false p st' "gpt-4" messages hasTools hrl
      (by exact congrArg Prod.fst hps')).1


/-- Witness for C4: rate 4/7 with the seed-42 generator — the first sample
(593435/1048576) triggers a burst, the drawn length is 4, the four
following calls all fail; from a state whose next sample (617400/1048576)
is not below the rate, the pattern check passes. -/
theorem mockLLM_burst_behavior_witness :
    isMockFailure (llmCall
      { latency_ms := 500, failure_rate := 4/7, failure_pattern := .burst,
        rate_limit_after := none, max_tokens := none, completeness_ratio := 1 }
      initState "gpt-4" ["ping"] false).1 = true
    ∧ (randomIntRange 2 4 (randomUnit initState.rng).2).1 = 4
    ∧ llmFailFlags
        { latency_ms := 500, failure_rate := 4/7, failure_pattern := .burst,
          rate_limit_after := none, max_tokens := none,
          completeness_ratio := 1 }
        (llmCall
          { latency_ms := 500, failure_rate := 4/7, failure_pattern := .burst,
            rate_limit_after := none, max_tokens := none,
            completeness_ratio := 1 }
          initState "gpt-4" ["ping"] false).2.1 ["ping"] false 4 =
      List.replicate 4 true
    ∧ isMockFailure (llmCall
        { latency_ms := 500, failure_rate := 4/7, failure_pattern := .burst,
          rate_limit_after := none, max_tokens := none,
          completeness_ratio := 1 }
        ⟨0, false, 0, 1250496027⟩ "gpt-4" ["ping"] false).1 = false := by
  have hq : (randomUnit initState.rng).1 < (4/7 : ℚ) := by
    show (randomUnit 42).1 < (4/7 : ℚ)
    norm_num [randomUnit, rngStep]
  have hB : (randomIntRange 2 4 (randomUnit initState.rng).2).1 = 4 := by
    decide
  have h := mockLLM_burst_behavior
    { latency_ms := 500, failure_rate := 4/7, failure_pattern := .burst,
      rate_limit_after := none, max_tokens := none, completeness_ratio := 1 }
    initState ["ping"] false rfl (by norm_num) rfl rfl hq
  refine ⟨h.1, hB, ?_, ?_⟩
  · have h4 := h.2.2.2.1
    rw [hB] at h4
    exact h4
  · refine h.2.2.2.2.2 ⟨0, false, 0, 1250496027⟩ rfl ?_
    show ¬ (randomUnit 1250496027).1 < (4/7 : ℚ)
    norm_num [randomUnit, rngStep]

end Canary
